import Mathlib

/-!
Verification of the numeric-estimate extraction core of `src/main.py`
(`get_total_production_from_llm`, lines 81–92) and the per-center division
of `main` (lines 112, 120–121), as a shallow embedding in Lean.

Modelling notes.
* Python strings are `List Char`.
* Python `str.isdigit` is the Unicode property "Numeric_Type is Digit or
  Decimal".  `pyIsDigit` encodes the ASCII digits together with the
  non-ASCII ranges relevant here (superscripts, subscripts, and the main
  decimal-digit ranges); the remaining Unicode digit ranges behave exactly
  like the encoded non-ASCII ones and no claim distinguishes them.
* Python `float(s)` on a string made of digit and period characters is
  modelled exactly at the level of the decimal grammar: at most one
  period, at least one digit, and every digit must carry a Unicode
  decimal value (category Nd) — characters such as the superscript two
  satisfy `str.isdigit` but are rejected by `float`.  The numeric value
  is kept as an exact rational; IEEE-754 round-to-nearest of the decimal
  value is not modelled (no claim depends on a value near a rounding
  boundary), except that overflow of the double range is: any value at or
  above the rounding boundary 2^1024 - 2^970 parses to positive infinity,
  exactly as C `strtod` (hence CPython) returns `inf` there.
* The advisory warning printed on the clamp path is modelled as a
  boolean in the result.
-/

/-- Outcome of Python `float` on the filtered string: an exact finite
rational, or positive infinity on overflow.  (`nan` and negative values
are unreachable: the filtered string has no sign and no letters.) -/
inductive PyFloat where
  | finite (q : ℚ) : PyFloat
  | inf : PyFloat
deriving DecidableEq

/-- The comparison `total_value > 500` of line 88: a Python float compared
with an integer literal.  Infinity is greater than every rational. -/
def PyFloat.gtRat : PyFloat → ℚ → Bool
  | .inf, _ => true
  | .finite q, c => decide (c < q)

/-- The two failure modes of the extraction routine (§4.1 of the spec):
line 83 raises on an empty filtered string, line 85 raises when `float`
rejects the filtered string. -/
inductive ExtractionError where
  | NoNumericContent : ExtractionError
  | MalformedNumber : ExtractionError
deriving DecidableEq

/-- Failure mode of the per-center division (§4.2): `main` aborts at line
112 when no centre matches, before any division. -/
inductive DivisionError where
  | ZeroCenters : DivisionError
deriving DecidableEq

/-- Python `str.isdigit` for one character: true when the character has
Unicode Numeric_Type Digit or Decimal.  Encoded ranges: ASCII `0`–`9`;
the Latin-1 superscripts ¹ ² ³; the superscripts U+2070, U+2074–U+2079;
the subscripts U+2080–U+2089; Arabic-Indic U+0660–U+0669; extended
Arabic-Indic U+06F0–U+06F9; Devanagari U+0966–U+096F; Bengali
U+09E6–U+09EF; fullwidth U+FF10–U+FF19.  Further Unicode digit ranges
behave like the ones encoded and are not needed by any claim. -/
def pyIsDigit (c : Char) : Bool :=
  (('0' ≤ c && c ≤ '9'))
  || c = '¹' || c = '²' || c = '³'
  || c.toNat = 0x2070 || (0x2074 ≤ c.toNat && c.toNat ≤ 0x2079)
  || (0x2080 ≤ c.toNat && c.toNat ≤ 0x2089)
  || (0x660 ≤ c.toNat && c.toNat ≤ 0x669)
  || (0x6F0 ≤ c.toNat && c.toNat ≤ 0x6F9)
  || (0x966 ≤ c.toNat && c.toNat ≤ 0x96F)
  || (0x9E6 ≤ c.toNat && c.toNat ≤ 0x9EF)
  || (0xFF10 ≤ c.toNat && c.toNat ≤ 0xFF19)

/-- Unicode decimal value of a character (category Nd), the digits that
CPython's `float` maps to ASCII before parsing.  The superscripts and
subscripts have Numeric_Type Digit but no decimal value, so they return
`none` here although `pyIsDigit` accepts them — exactly the CPython
behaviour (`float` raises on them). -/
def pyDecimalVal (c : Char) : Option Nat :=
  if '0' ≤ c && c ≤ '9' then some (c.toNat - 0x30)
  else if 0x660 ≤ c.toNat && c.toNat ≤ 0x669 then some (c.toNat - 0x660)
  else if 0x6F0 ≤ c.toNat && c.toNat ≤ 0x6F9 then some (c.toNat - 0x6F0)
  else if 0x966 ≤ c.toNat && c.toNat ≤ 0x96F then some (c.toNat - 0x966)
  else if 0x9E6 ≤ c.toNat && c.toNat ≤ 0x9EF then some (c.toNat - 0x9E6)
  else if 0xFF10 ≤ c.toNat && c.toNat ≤ 0xFF19 then some (c.toNat - 0xFF10)
  else none

/-- Value of a run of decimal digits, most significant first; `none` when
some character has no Unicode decimal value.  The empty run has value 0
(the caller decides whether an empty side of the period is allowed). -/
def digitsToNat (l : List Char) : Option Nat :=
  l.foldl
    (fun acc c =>
      match acc, pyDecimalVal c with
      | some a, some d => some (10 * a + d)
      | _, _ => none)
    (some 0)

/-- Package integer part `i` and fraction-digit value `f` over `k`
fraction digits into a Python float with value `(i * 10^k + f) / 10^k`:
overflow of the IEEE double range (any decimal value at or above
2^1024 - 2^970, the round-to-nearest boundary) yields positive infinity,
as C `strtod` does; otherwise the exact rational.  The overflow
comparison is stated scaled by the positive factor `10^k`, keeping it
in `ℕ`. -/
def mkPyFloat (i f k : ℕ) : PyFloat :=
  if (2 ^ 1024 - 2 ^ 970) * 10 ^ k ≤ i * 10 ^ k + f then .inf
  else .finite (mkRat (i * 10 ^ k + f) (10 ^ k))

/-- Python `float` (line 85) on a string of digit/period characters: at
most one period, at least one digit somewhere, every digit a Unicode
decimal digit; `none` models the `ValueError` raised otherwise. -/
def pyFloatOfString (s : List Char) : Option PyFloat :=
  if 1 < s.count '.' then none
  else
    let ip := s.takeWhile (fun c => c ≠ '.')
    let fp := (s.dropWhile (fun c => c ≠ '.')).drop 1
    if ip.isEmpty && fp.isEmpty then none
    else
      match digitsToNat ip, digitsToNat fp with
      | some i, some f => some (mkPyFloat i f fp.length)
      | _, _ => none

instance {ε α : Type} [DecidableEq ε] [DecidableEq α] : DecidableEq (Except ε α) :=
  fun x y =>
    match x, y with
    | .ok a, .ok b =>
      if h : a = b then .isTrue (by rw [h]) else .isFalse (by simp [h])
    | .error a, .error b =>
      if h : a = b then .isTrue (by rw [h]) else .isFalse (by simp [h])
    | .ok _, .error _ => .isFalse (by simp)
    | .error _, .ok _ => .isFalse (by simp)

/-- Line 81: `''.join(filter(lambda x: x.isdigit() or x == '.', llm_output))` —
keep the digit and period characters of the raw text, in order. -/
def numericStr (raw_text : List Char) : List Char :=
  raw_text.filter (fun x => pyIsDigit x || x == '.')

/-- The extraction-and-validation core, lines 81–92 of
`get_total_production_from_llm` (named `extract_estimate` as in §4.1 of
the spec; the source hard-codes `ceiling = 500`, `fallback = 145`).
The boolean records whether the advisory warning of line 89 was printed. -/
def extract_estimate (raw_text : List Char) (ceiling fallback : ℚ) :
    Except ExtractionError (PyFloat × Bool) :=
  let numeric_str := numericStr raw_text
  if numeric_str.isEmpty then .error .NoNumericContent
  else
    match pyFloatOfString numeric_str with
    | none => .error .MalformedNumber
    | some total_value =>
      if total_value.gtRat ceiling then .ok (.finite fallback, true)
      else .ok (total_value, false)

/-- The per-center division of `main` (§4.2): line 112 aborts when the
centre count is zero, before the conversion to tons (line 120, multiply
by 1,000,000) and the division by the centre count (line 121). -/
def per_center (total_million_tons : ℚ) (center_count : ℕ) :
    Except DivisionError ℚ :=
  if center_count = 0 then .error .ZeroCenters
  else .ok (total_million_tons * 1000000 / center_count)

set_option maxRecDepth 100000

set_option exponentiation.threshold 2000

theorem pyFloatOfString_nil : pyFloatOfString [] = none := rfl

theorem mkPyFloat_finite_nonneg {i f k : ℕ} {q : ℚ}
    (h : mkPyFloat i f k = .finite q) : 0 ≤ q := by
  unfold mkPyFloat at h
  split at h
  · exact PyFloat.noConfusion h
  · injection h with h
    subst h
    rw [Rat.mkRat_eq_div]
    positivity

theorem pyFloatOfString_finite_nonneg {s : List Char} {q : ℚ}
    (h : pyFloatOfString s = some (.finite q)) : 0 ≤ q := by
  simp only [pyFloatOfString] at h
  split at h
  · exact Option.noConfusion h
  · split at h
    · exact Option.noConfusion h
    · split at h
      · injection h with h
        exact mkPyFloat_finite_nonneg h
      · exact Option.noConfusion h

theorem extract_eq_of_parse {raw : List Char} {c fb : ℚ} {v : PyFloat}
    (hp : pyFloatOfString (numericStr raw) = some v) :
    extract_estimate raw c fb =
      if v.gtRat c then .ok (.finite fb, true) else .ok (v, false) := by
  have hne : (numericStr raw).isEmpty = false := by
    rw [List.isEmpty_eq_false]
    intro h0
    rw [h0, pyFloatOfString_nil] at hp
    exact Option.noConfusion hp
  simp only [extract_estimate, hne, Bool.false_eq_true, if_false, hp]

/-- Claim C1: for every raw text on which extraction succeeds, the
returned estimate is a finite, non-negative rational at most the
plausibility ceiling 500. -/
theorem C1_extract_success_bounded (raw : List Char) (r : PyFloat) (w : Bool)
    (h : extract_estimate raw 500 145 = .ok (r, w)) :
    ∃ q : ℚ, r = .finite q ∧ 0 ≤ q ∧ q ≤ 500 := by
  by_cases hp : ∃ v, pyFloatOfString (numericStr raw) = some v
  · obtain ⟨v, hv⟩ := hp
    rw [extract_eq_of_parse hv] at h
    by_cases hg : v.gtRat 500 = true
    · rw [if_pos hg] at h
      simp only [Except.ok.injEq, Prod.mk.injEq] at h
      exact ⟨145, h.1.symm, by norm_num, by norm_num⟩
    · rw [if_neg hg] at h
      simp only [Except.ok.injEq, Prod.mk.injEq] at h
      cases v with
      | inf => exact absurd rfl hg
      | finite q =>
        refine ⟨q, h.1.symm, pyFloatOfString_finite_nonneg hv, ?_⟩
        simp only [PyFloat.gtRat, decide_eq_true_eq] at hg
        exact le_of_not_lt hg
  · push_neg at hp
    have hnone : pyFloatOfString (numericStr raw) = none := by
      cases hE : pyFloatOfString (numericStr raw) with
      | none => rfl
      | some v => exact absurd hE (hp v)
    simp only [extract_estimate, hnone] at h
    split at h
    · exact Except.noConfusion h
    · exact Except.noConfusion h

/-- Witness for C1 at the raw text `"42"`. -/
theorem C1_extract_success_bounded_wit :
    extract_estimate "42".data 500 145 = .ok (.finite 42, false) ∧
    ∃ q : ℚ, PyFloat.finite (42 : ℚ) = .finite q ∧ 0 ≤ q ∧ q ≤ 500 :=
  ⟨by decide, C1_extract_success_bounded "42".data (.finite 42) false (by decide)⟩

/-- Claim C2 as stated is false: `per_center 145000000 10` multiplies by
1,000,000 and divides by 10, giving 14,500,000,000,000 — not the
14,500,000 the claim asserts. -/
theorem C2_example_false :
    per_center 145000000 10 = .ok 14500000000000 ∧
    (14500000000000 : ℚ) ≠ 14500000 := by
  constructor
  · norm_num [per_center]
  · norm_num

/-- Claim C2 (amended): `per_center` multiplies the estimate (in million
tons) by 1,000,000 and divides by the centre count; `per_center 145 10`
returns 14,500,000, and `per_center x 0` fails with `ZeroCenters` for
every `x`. -/
theorem C2_per_center_amended :
    (∀ x : ℚ, per_center x 0 = .error .ZeroCenters) ∧
    per_center 145 10 = .ok 14500000 ∧
    (∀ (t : ℚ) (n : ℕ), n ≠ 0 → per_center t n = .ok (t * 1000000 / n)) := by
  refine ⟨fun x => rfl, by norm_num [per_center], fun t n hn => ?_⟩
  simp [per_center, hn]

/-- Witness for the amended C2 at `t = 145`, `n = 10`. -/
theorem C2_per_center_amended_wit :
    (10 : ℕ) ≠ 0 ∧ per_center 145 10 = .ok ((145 : ℚ) * 1000000 / 10) :=
  ⟨by decide, C2_per_center_amended.2.2 145 10 (by decide)⟩

/-- Claim C3: whenever the filtered token parses to a value `v`, the
extractor returns the fallback 145 with an advisory notice when `v`
exceeds the ceiling 500, and returns `v` unchanged with no notice when
`v` is at or below 500; concretely `"600"` yields the fallback 145 with
a notice, `"0"` yields 0 with no notice, and `"500"` passes through. -/
theorem C3_clamp_rule :
    (∀ (raw : List Char) (v : PyFloat),
        pyFloatOfString (numericStr raw) = some v →
        extract_estimate raw 500 145 =
          if v.gtRat 500 then .ok (.finite 145, true) else .ok (v, false)) ∧
    extract_estimate "600".data 500 145 = .ok (.finite 145, true) ∧
    extract_estimate "0".data 500 145 = .ok (.finite 0, false) ∧
    extract_estimate "500".data 500 145 = .ok (.finite 500, false) :=
  ⟨fun _ _ hp => extract_eq_of_parse hp, by decide, by decide, by decide⟩

/-- Witness for C3 at the raw text `"600"`. -/
theorem C3_clamp_rule_wit :
    pyFloatOfString (numericStr "600".data) = some (.finite 600) ∧
    extract_estimate "600".data 500 145 =
      (if (PyFloat.finite 600).gtRat 500 then .ok (.finite 145, true)
       else .ok (.finite 600, false)) :=
  ⟨by decide, C3_clamp_rule.1 "600".data (.finite 600) (by decide)⟩

/-- Claim C4 as stated is false: the filter keeps every character with
Python `str.isdigit` true, so the superscript two — which is not an
ASCII decimal digit and not the period — is retained, where the claimed
ASCII-only rule would discard it. -/
theorem C4_ascii_rule_false :
    numericStr ['²'] = ['²'] ∧
    ['²'].filter (fun c => c.isDigit || c == '.') = [] := by
  constructor
  · decide
  · decide

/-- Claim C4 (amended): the extraction step retains exactly the
characters for which Python `str.isdigit` holds — the ASCII decimal
digits and certain non-ASCII digit characters — or the literal period,
in left-to-right order, discarding all other characters; consequently a
plain decimal string such as `"146.5 million tons"` extracts to 146.5. -/
theorem C4_retained_chars :
    (∀ raw : List Char,
        numericStr raw = raw.filter (fun c => pyIsDigit c || c == '.')) ∧
    (∀ c : Char, c.isDigit = true → pyIsDigit c = true) ∧
    extract_estimate "146.5 million tons".data 500 145 =
      .ok (.finite (mkRat 1465 10), false) ∧
    mkRat 1465 10 = (146.5 : ℚ) := by
  refine ⟨fun _ => rfl, fun c h => ?_, by decide, by norm_num [Rat.mkRat_eq_div]⟩
  simp only [Char.isDigit, ge_iff_le, Bool.and_eq_true, decide_eq_true_eq] at h
  have h0 : '0' ≤ c := Char.le_def.mpr h.1
  have h9 : c ≤ '9' := Char.le_def.mpr h.2
  simp [pyIsDigit, h0, h9]

/-- Claim C5: for the raw text `"Approximately 140–150"` the digit
characters are concatenated into the single token `"140150"`, which
parses to the finite value 140150; since 140150 exceeds the default
ceiling 500, extraction returns the fallback 145 with a notice.  The
fusion of multiple numbers into one token is uniform: the filter
distributes over concatenation of raw texts. -/
theorem C5_range_fusion :
    numericStr "Approximately 140–150".data = "140150".data ∧
    pyFloatOfString "140150".data = some (.finite 140150) ∧
    extract_estimate "Approximately 140–150".data 500 145 =
      .ok (.finite 145, true) ∧
    (∀ a b : List Char, numericStr (a ++ b) = numericStr a ++ numericStr b) :=
  ⟨by decide, by decide, by decide, fun a b => List.filter_append a b⟩

/-- Claim C6: when no character of the raw text is a digit (Python
`str.isdigit`) and none is a period, the filtered string is empty and
extraction fails with `NoNumericContent`. -/
theorem C6_no_numeric_content (raw : List Char)
    (h : ∀ c ∈ raw, pyIsDigit c = false ∧ c ≠ '.') :
    extract_estimate raw 500 145 = .error .NoNumericContent := by
  have hnil : numericStr raw = [] := by
    refine List.filter_eq_nil_iff.mpr fun c hc => ?_
    simp [(h c hc).1, (h c hc).2]
  simp [extract_estimate, hnil]

/-- Witness for C6 at the raw text `"hello"`. -/
theorem C6_no_numeric_content_wit :
    (∀ c ∈ "hello".data, pyIsDigit c = false ∧ c ≠ '.') ∧
    extract_estimate "hello".data 500 145 = .error .NoNumericContent :=
  ⟨by decide, C6_no_numeric_content "hello".data (by decide)⟩

/-- Claim C7: when the filtered digit/period string is non-empty but is
not a valid decimal literal, the parse failure propagates as
`MalformedNumber` and no fallback value is returned. -/
theorem C7_malformed_propagates (raw : List Char)
    (hne : numericStr raw ≠ [])
    (hp : pyFloatOfString (numericStr raw) = none) :
    extract_estimate raw 500 145 = .error .MalformedNumber := by
  have he : (numericStr raw).isEmpty = false := List.isEmpty_eq_false.mpr hne
  simp [extract_estimate, he, hp]

/-- Witness for C7 at the raw text `"140.15.0"` (two periods). -/
theorem C7_malformed_propagates_wit :
    numericStr "140.15.0".data ≠ [] ∧
    pyFloatOfString (numericStr "140.15.0".data) = none ∧
    extract_estimate "140.15.0".data 500 145 = .error .MalformedNumber :=
  ⟨by decide, by decide,
    C7_malformed_propagates "140.15.0".data (by decide) (by decide)⟩

/-- Claim C8: extraction is deterministic and stateless — two calls on
identical raw texts (and the same configured bounds) give identical
outcomes; the function has no other inputs. -/
theorem C8_deterministic (r1 r2 : List Char) (c f : ℚ) (h : r1 = r2) :
    extract_estimate r1 c f = extract_estimate r2 c f := by rw [h]

/-- Witness for C8 at the raw text `"7"`. -/
theorem C8_deterministic_wit :
    "7".data = "7".data ∧
    extract_estimate "7".data 500 145 = extract_estimate "7".data 500 145 :=
  ⟨rfl, C8_deterministic "7".data "7".data 500 145 rfl⟩

/-- Claim C9: there is an input — a single superscript two — containing
no ASCII digit and no period whose filtered string is nonetheless
non-empty, so extraction does not fail with `NoNumericContent` but fails
at the parse step with `MalformedNumber`. -/
theorem C9_nonascii_digit_parse_failure :
    ∃ raw : List Char,
      (∀ c ∈ raw, c.isDigit = false ∧ c ≠ '.') ∧
      numericStr raw ≠ [] ∧
      extract_estimate raw 500 145 = .error .MalformedNumber :=
  ⟨['²'], by decide, by decide, by decide⟩

/-- Claim C10: a run of 400 nines parses past the double range, giving
positive infinity, which exceeds the ceiling 500, so extraction returns
the finite fallback 145 (with the advisory notice) rather than an
infinite value or an error. -/
theorem C10_overflow_clamped :
    pyFloatOfString (numericStr (List.replicate 400 '9')) = some .inf ∧
    PyFloat.gtRat .inf 500 = true ∧
    extract_estimate (List.replicate 400 '9') 500 145 =
      .ok (.finite 145, true) :=
  ⟨by decide, rfl, by decide⟩

/-- Witness for the amended C4 at the ASCII digit `'7'`. -/
theorem C4_retained_chars_wit :
    Char.isDigit '7' = true ∧ pyIsDigit '7' = true :=
  ⟨by decide, C4_retained_chars.2.1 '7' (by decide)⟩
